import Mathlib

/-!
Verification of the restore orchestration core of idevicerestore
(src/idevicerestore.c) against its natural-language specification.

The C file's data and control flow is shallowly embedded below:

* property-list values (`plist_t`) become the inductive `Plist`;
* the TSS ticket lookups `get_tss_data_by_name` / `get_tss_data_by_path`
  become Lean functions returning the C return code together with the two
  output pointers (`none` models a NULL pointer);
* the straight-line phases of `main` (device probing, filesystem-path
  resolution, the boot-chain upload) become functions from the outcomes of
  the external calls to the trace of observable actions;
* the restore message loop becomes a recursive function over the list of
  received messages and handler statuses, threading the shared
  mode/quit cell that `device_callback` writes.
-/

namespace IDR

/-- Property-list values, mirroring the plist node kinds the C source
inspects (`PLIST_UINT`, `PLIST_STRING`, `PLIST_DATA`, `PLIST_ARRAY`,
`PLIST_DICT`).  A dictionary is its ordered list of key/value pairs, the
order `plist_dict_next_item` iterates in. -/
inductive Plist where
  | boolean (b : Bool)
  | uint (n : Nat)
  | string (s : String)
  | data (bytes : List Nat)
  | array (items : List Plist)
  | dict (entries : List (String × Plist))

/-- First value stored under `key`, as `plist_dict_get_item` returns it. -/
def assoc_get (key : String) : List (String × Plist) → Option Plist
  | [] => none
  | (k, v) :: rest => if k = key then some v else assoc_get key rest

/-- `plist_dict_get_item(node, key)`: NULL (`none`) unless `node` is a
dictionary holding `key`. -/
def plist_dict_get_item (node : Plist) (key : String) : Option Plist :=
  match node with
  | .dict entries => assoc_get key entries
  | _ => none

/-- `plist_get_node_type(node) == PLIST_DICT`. -/
def isDict : Plist → Bool
  | .dict _ => true
  | _ => false

/-- The type check `plist_get_node_type(node) == PLIST_STRING` followed by
`plist_get_string_val`. -/
def asString : Plist → Option String
  | .string s => some s
  | _ => none

/-- The type check `plist_get_node_type(node) == PLIST_DATA` followed by
`plist_get_data_val`. -/
def asData : Plist → Option (List Nat)
  | .data bytes => some bytes
  | _ => none

/-- The "Path" string of a ticket entry: `plist_dict_get_item(entry, "Path")`
plus the string type check, as both lookups perform it. -/
def entryPath (entry : Plist) : Option String :=
  (plist_dict_get_item entry "Path").bind asString

/-- The "Blob" data of a ticket entry: `plist_dict_get_item(entry, "Blob")`
plus the data type check, as both lookups perform it. -/
def entryBlob (entry : Plist) : Option (List Nat) :=
  (plist_dict_get_item entry "Blob").bind asData

/-- Result of the two ticket lookups: the `int` return code together with
the two output pointers, which the C functions set to NULL on entry
(`none`) and fill only on success. -/
abbrev TssResult := Int × Option String × Option (List Nat)

/-- `get_tss_data_by_name` (src lines 500-531): `*ppath` and `*pblob` are
NULLed; the entry is looked up by key and must be a dictionary; its "Path"
string and "Blob" data are read; any absent or wrongly typed node makes the
function return -1 with the outputs still NULL. -/
def get_tss_data_by_name (tss : Plist) (entry : String) : TssResult :=
  match plist_dict_get_item tss entry with
  | none => (-1, none, none)
  | some node =>
    if isDict node then
      match entryPath node with
      | none => (-1, none, none)
      | some path =>
        match entryBlob node with
        | none => (-1, none, none)
        | some blob => (0, some path, some blob)
    else (-1, none, none)

/-- The scan body of `get_tss_data_by_path` (src lines 463-494): walk the
entries in order; a non-dictionary value is skipped (`continue`); a
dictionary without a "Path" string makes the function return -1 at once; a
matching "Path" reads the "Blob" (returning -1 if it is absent or not
data) and returns the entry's key and blob; exhausting the dictionary
returns -1. -/
def tss_scan_by_path (path : String) : List (String × Plist) → TssResult
  | [] => (-1, none, none)
  | (key, tss_entry) :: rest =>
    if isDict tss_entry then
      match entryPath tss_entry with
      | none => (-1, none, none)
      | some entry_path =>
        if path = entry_path then
          match entryBlob tss_entry with
          | none => (-1, none, none)
          | some blob => (0, some key, some blob)
        else tss_scan_by_path path rest
    else tss_scan_by_path path rest

/-- `get_tss_data_by_path` (src lines 455-498): iterate the top-level
dictionary with `plist_dict_new_iter` / `plist_dict_next_item` and run the
scan body. -/
def get_tss_data_by_path (tss : Plist) (path : String) : TssResult :=
  match tss with
  | .dict entries => tss_scan_by_path path entries
  | _ => (-1, none, none)

/-- Modelled from the spec: "linear scan over all entries whose value is a
dictionary carrying `Path == p`", first match wins.  Reference function used
only to compare the source's scan against the spec's words. -/
def specFirstEntryWithPath (path : String) : List (String × Plist) → Option (String × Plist)
  | [] => none
  | (k, v) :: rest =>
    if isDict v = true ∧ entryPath v = some path then some (k, v)
    else specFirstEntryWithPath path rest

lemma tss_scan_cons_skip (p k : String) (w : Plist) (rest : List (String × Plist))
    (h : isDict w = false) :
    tss_scan_by_path p ((k, w) :: rest) = tss_scan_by_path p rest := by
  simp [tss_scan_by_path, h]

lemma tss_scan_cons_nomatch (p k : String) (w : Plist) (rest : List (String × Plist))
    (q : String) (hd : isDict w = true) (hq : entryPath w = some q) (hne : p ≠ q) :
    tss_scan_by_path p ((k, w) :: rest) = tss_scan_by_path p rest := by
  simp [tss_scan_by_path, hd, hq, hne]

lemma tss_scan_cons_match (p k : String) (w : Plist) (rest : List (String × Plist))
    (b : List Nat) (hd : isDict w = true) (hq : entryPath w = some p)
    (hb : entryBlob w = some b) :
    tss_scan_by_path p ((k, w) :: rest) = (0, some k, some b) := by
  simp [tss_scan_by_path, hd, hq, hb]

lemma assoc_get_mem (key : String) :
    ∀ es : List (String × Plist), ∀ v, assoc_get key es = some v → (key, v) ∈ es := by
  intro es
  induction es with
  | nil => intro v h; simp [assoc_get] at h
  | cons e rest ih =>
    obtain ⟨k, w⟩ := e
    intro v h
    by_cases hk : k = key
    · subst hk
      simp [assoc_get] at h
      subst h
      exact List.mem_cons_self _ _
    · simp [assoc_get, hk] at h
      exact List.mem_cons_of_mem _ (ih v h)

lemma by_name_succ_iff (es : List (String × Plist)) (n p : String) (b : List Nat) :
    get_tss_data_by_name (.dict es) n = (0, some p, some b) ↔
    ∃ v, assoc_get n es = some v ∧ isDict v = true ∧ entryPath v = some p ∧
      entryBlob v = some b := by
  simp only [get_tss_data_by_name, plist_dict_get_item]
  cases h : assoc_get n es with
  | none => simp
  | some v =>
    cases hd : isDict v with
    | false => simp [hd]
    | true =>
      cases hp : entryPath v with
      | none => simp [hd, hp]
      | some q =>
        cases hb : entryBlob v with
        | none => simp [hd, hp, hb]
        | some b' => simp [hd, hp, hb]

lemma tss_scan_finds (p n : String) (b : List Nat) :
    ∀ es : List (String × Plist),
    (∀ e ∈ es, isDict e.2 = true → (entryPath e.2).isSome ∧ (entryBlob e.2).isSome) →
    List.Pairwise (fun e₁ e₂ => isDict e₁.2 = true → isDict e₂.2 = true →
      entryPath e₁.2 ≠ entryPath e₂.2) es →
    ∀ v, assoc_get n es = some v → isDict v = true → entryPath v = some p →
      entryBlob v = some b →
    tss_scan_by_path p es = (0, some n, some b) := by
  intro es
  induction es with
  | nil => intro _ _ v hget; simp [assoc_get] at hget
  | cons e rest ih =>
    obtain ⟨k, w⟩ := e
    intro hwf hpw v hget hdv hpv hbv
    rw [List.pairwise_cons] at hpw
    by_cases hk : k = n
    · subst hk
      simp [assoc_get] at hget
      subst hget
      exact tss_scan_cons_match _ _ _ _ _ hdv hpv hbv
    · simp [assoc_get, hk] at hget
      have hmem : (n, v) ∈ rest := assoc_get_mem n rest v hget
      cases hdw : isDict w with
      | false =>
        rw [tss_scan_cons_skip p k w rest hdw]
        exact ih (fun e he h => hwf e (List.mem_cons_of_mem _ he) h) hpw.2 v hget hdv hpv hbv
      | true =>
        obtain ⟨hq0, _⟩ := hwf (k, w) (List.mem_cons_self _ _) hdw
        obtain ⟨q, hq⟩ := Option.isSome_iff_exists.mp hq0
        have hne : entryPath w ≠ entryPath v := hpw.1 (n, v) hmem hdw hdv
        have hpq : p ≠ q := by
          intro hpq
          exact hne (by rw [hq, hpv, hpq])
        rw [tss_scan_cons_nomatch p k w rest q hdw hq hpq]
        exact ih (fun e he h => hwf e (List.mem_cons_of_mem _ he) h) hpw.2 v hget hdv hpv hbv

/-- Claim C2, counterexample to the claim as stated: in the ticket
`{A: {}, B: {Path: "p", Blob: [1]}}` the by-name lookup of "B" succeeds with
path "p", yet the by-path lookup of "p" fails, because the scan aborts on
the dictionary entry "A" that carries no "Path" string. -/
theorem tss_lookup_not_inverse_cex :
    get_tss_data_by_name
        (.dict [("A", .dict []), ("B", .dict [("Path", .string "p"), ("Blob", .data [1])])]) "B"
      = (0, some "p", some [1])
    ∧ get_tss_data_by_path
        (.dict [("A", .dict []), ("B", .dict [("Path", .string "p"), ("Blob", .data [1])])]) "p"
      = (-1, none, none) := by decide

/-- Claim C2 (amended): provided every dictionary-valued ticket entry
carries a string "Path" and a data "Blob", and no two dictionary-valued
entries share the same "Path", a successful by-name lookup returning
`(path, blob)` implies the by-path lookup on `path` succeeds and returns
the same name and the same blob — the two lookups are inverses over such a
ticket. -/
theorem tss_lookup_inverse_amended (entries : List (String × Plist)) (n path : String)
    (blob : List Nat)
    (hwf : ∀ e ∈ entries, isDict e.2 = true → (entryPath e.2).isSome ∧ (entryBlob e.2).isSome)
    (hpaths : List.Pairwise (fun e₁ e₂ => isDict e₁.2 = true → isDict e₂.2 = true →
      entryPath e₁.2 ≠ entryPath e₂.2) entries)
    (h : get_tss_data_by_name (.dict entries) n = (0, some path, some blob)) :
    get_tss_data_by_path (.dict entries) path = (0, some n, some blob) := by
  obtain ⟨v, hget, hd, hp, hb⟩ := (by_name_succ_iff entries n path blob).mp h
  simpa [get_tss_data_by_path] using
    tss_scan_finds path n blob entries hwf hpaths v hget hd hp hb

/-- Claim C2, witness: the amended inverse law evaluated on a concrete
one-entry ticket. -/
theorem tss_lookup_inverse_witness :
    get_tss_data_by_path
        (.dict [("KernelCache", .dict [("Path", .string "k.img3"), ("Blob", .data [7, 7])])])
        "k.img3"
      = (0, some "KernelCache", some [7, 7]) :=
  tss_lookup_inverse_amended
    [("KernelCache", .dict [("Path", .string "k.img3"), ("Blob", .data [7, 7])])]
    "KernelCache" "k.img3" [7, 7] (by decide) (by decide) (by decide)

lemma scan_spec_none (p : String) :
    ∀ es : List (String × Plist),
    (∀ e ∈ es, isDict e.2 = true → (entryPath e.2).isSome) →
    specFirstEntryWithPath p es = none → tss_scan_by_path p es = (-1, none, none) := by
  intro es
  induction es with
  | nil => intro _ _; simp [tss_scan_by_path]
  | cons e rest ih =>
    obtain ⟨k, w⟩ := e
    intro hwf hspec
    simp only [specFirstEntryWithPath] at hspec
    cases hdw : isDict w with
    | false =>
      have hc : ¬(isDict w = true ∧ entryPath w = some p) := by simp [hdw]
      rw [if_neg hc] at hspec
      simp only [tss_scan_by_path, hdw, Bool.false_eq_true, if_neg]
      exact ih (fun e he h => hwf e (List.mem_cons_of_mem _ he) h) hspec
    | true =>
      obtain ⟨q, hq⟩ := Option.isSome_iff_exists.mp
        (hwf (k, w) (List.mem_cons_self _ _) hdw)
      have hqp : ¬(q = p) := by
        intro hqp
        rw [if_pos ⟨hdw, by rw [hq, hqp]⟩] at hspec
        exact Option.some_ne_none _ hspec
      have hc : ¬(isDict w = true ∧ entryPath w = some p) := by
        rintro ⟨_, hpw⟩
        rw [hq] at hpw
        exact hqp (Option.some.injEq _ _ ▸ hpw)
      rw [if_neg hc] at hspec
      have hpq : ¬(p = q) := fun h => hqp h.symm
      simp only [tss_scan_by_path, hdw, if_pos rfl, hq, if_neg hpq]
      exact ih (fun e he h => hwf e (List.mem_cons_of_mem _ he) h) hspec

lemma scan_spec_some (p : String) :
    ∀ es : List (String × Plist),
    (∀ e ∈ es, isDict e.2 = true → (entryPath e.2).isSome) →
    ∀ k v b, specFirstEntryWithPath p es = some (k, v) → entryBlob v = some b →
    tss_scan_by_path p es = (0, some k, some b) := by
  intro es
  induction es with
  | nil => intro _ k v b h; simp [specFirstEntryWithPath] at h
  | cons e rest ih =>
    obtain ⟨k0, w⟩ := e
    intro hwf k v b hspec hb
    simp only [specFirstEntryWithPath] at hspec
    by_cases hc : isDict w = true ∧ entryPath w = some p
    · rw [if_pos hc] at hspec
      obtain ⟨hk, hv⟩ := Prod.mk.injEq _ _ _ _ ▸ Option.some.injEq _ _ ▸ hspec
      subst hk
      subst hv
      simp [tss_scan_by_path, hc.1, hc.2, hb]
    · rw [if_neg hc] at hspec
      cases hdw : isDict w with
      | false =>
        simp only [tss_scan_by_path, hdw, Bool.false_eq_true, if_neg]
        exact ih (fun e he h => hwf e (List.mem_cons_of_mem _ he) h) k v b hspec hb
      | true =>
        obtain ⟨q, hq⟩ := Option.isSome_iff_exists.mp
          (hwf (k0, w) (List.mem_cons_self _ _) hdw)
        have hpq : ¬(p = q) := by
          intro hpq
          exact hc ⟨hdw, by rw [hq, hpq]⟩
        simp only [tss_scan_by_path, hdw, if_pos rfl, hq, if_neg hpq]
        exact ih (fun e he h => hwf e (List.mem_cons_of_mem _ he) h) k v b hspec hb

/-- Claim C5, counterexample to the claim as stated: the ticket
`{A: {}, B: {Path: "p", Blob: [3]}}` has an entry whose "Path" equals "p"
(the by-name lookup of "B" confirms it), yet the by-path lookup of "p"
returns the missing-entry error: the dictionary entry "A" without a "Path"
string aborts the scan, refuting "a non-matching entry never aborts the
scan". -/
theorem by_path_scan_abort_cex :
    get_tss_data_by_name
        (.dict [("A", .dict []), ("B", .dict [("Path", .string "p"), ("Blob", .data [3])])]) "B"
      = (0, some "p", some [3])
    ∧ get_tss_data_by_path
        (.dict [("A", .dict []), ("B", .dict [("Path", .string "p"), ("Blob", .data [3])])]) "p"
      = (-1, none, none) := by decide

/-- Claim C5 (amended): the by-path lookup scans the top-level entries in
order and skips entries whose value is not a dictionary; provided every
dictionary-valued entry carries a string "Path", it returns the first entry
whose "Path" equals `p` (with that entry's data "Blob") and fails with the
missing-entry error when no entry's "Path" equals `p`.  (Without that
proviso a dictionary entry lacking a "Path" string aborts the scan with an
error even when a later entry matches.) -/
theorem by_path_scan_amended (entries : List (String × Plist)) (p : String)
    (hwf : ∀ e ∈ entries, isDict e.2 = true → (entryPath e.2).isSome) :
    (specFirstEntryWithPath p entries = none →
      get_tss_data_by_path (.dict entries) p = (-1, none, none))
    ∧ (∀ k v b, specFirstEntryWithPath p entries = some (k, v) → entryBlob v = some b →
      get_tss_data_by_path (.dict entries) p = (0, some k, some b)) := by
  constructor
  · intro hspec
    simpa [get_tss_data_by_path] using scan_spec_none p entries hwf hspec
  · intro k v b hspec hb
    simpa [get_tss_data_by_path] using scan_spec_some p entries hwf k v b hspec hb

/-- Claim C5, witness: the amended scan law evaluated on a concrete ticket
holding one non-dictionary entry (skipped) before the matching entry. -/
theorem by_path_scan_witness :
    get_tss_data_by_path
        (.dict [("N", .uint 3), ("B", .dict [("Path", .string "p"), ("Blob", .data [2])])]) "p"
      = (0, some "B", some [2]) :=
  (by_path_scan_amended
      [("N", .uint 3), ("B", .dict [("Path", .string "p"), ("Blob", .data [2])])] "p"
      (by decide)).2
    "B" (.dict [("Path", .string "p"), ("Blob", .data [2])]) [2] rfl (by decide)

lemma by_name_cases (tss : Plist) (entry : String) :
    get_tss_data_by_name tss entry = (-1, none, none) ∨
    ∃ p b, get_tss_data_by_name tss entry = (0, some p, some b) := by
  unfold get_tss_data_by_name
  cases plist_dict_get_item tss entry with
  | none => exact Or.inl rfl
  | some node =>
    cases hd : isDict node with
    | false => simp [hd]
    | true =>
      cases hp : entryPath node with
      | none => simp [hd, hp]
      | some q =>
        cases hb : entryBlob node with
        | none => simp [hd, hp, hb]
        | some b' => simp [hd, hp, hb]

/-- Claim C10: whenever `get_tss_data_by_name` fails (nonzero return code),
both output parameters are left NULL: the result is exactly
`(-1, NULL, NULL)`, and the caller never receives a dangling or partial
result on the error path. -/
theorem by_name_failure_outputs_null (tss : Plist) (entry : String)
    (h : (get_tss_data_by_name tss entry).1 ≠ 0) :
    get_tss_data_by_name tss entry = (-1, none, none) := by
  rcases by_name_cases tss entry with h1 | ⟨p, b, h1⟩
  · exact h1
  · rw [h1] at h
    simp at h

/-- Claim C10, witness: the failure law evaluated at an empty ticket. -/
theorem by_name_failure_witness :
    get_tss_data_by_name (.dict []) "KernelCache" = (-1, none, none) :=
  by_name_failure_outputs_null (.dict []) "KernelCache" (by decide)

lemma asString_eq_some (v : Plist) (s : String) : asString v = some s ↔ v = .string s := by
  cases v <;> simp [asString]

/-- The filesystem-path phase of `main` (src lines 209-232).  Both the TSS
request and the TSS response are live at this point of `main`; the code
reads the "OS" entry, its "Info" dictionary and the "Path" string from
`tss_request`, and `main` returns -1 (modelled as `none`) before calling
`ipsw_extract_to_file` when any of them is absent or wrongly typed. -/
def main_filesystem_path (tss_request tss_response : Plist) : Option String :=
  match plist_dict_get_item tss_request "OS" with
  | none => none
  | some filesystem_node =>
    if isDict filesystem_node then
      match plist_dict_get_item filesystem_node "Info" with
      | none => none
      | some filesystem_info_node =>
        if isDict filesystem_info_node then
          match plist_dict_get_item filesystem_info_node "Path" with
          | none => none
          | some filesystem_info_path_node => asString filesystem_info_path_node
        else none
    else none

/-- Claim C3, counterexample to the claim as stated: with a TSS request
whose `OS.Info.Path` is "fs.dmg" and a TSS response whose `OS.Info.Path` is
"other.dmg", the path handed to the filesystem extraction is "fs.dmg" — the
one from the request — not the response's "other.dmg" (the second conjunct
reads the same nested path out of the response). -/
theorem filesystem_path_from_response_cex :
    main_filesystem_path
        (.dict [("OS", .dict [("Info", .dict [("Path", .string "fs.dmg")])])])
        (.dict [("OS", .dict [("Info", .dict [("Path", .string "other.dmg")])])])
      = some "fs.dmg"
    ∧ main_filesystem_path
        (.dict [("OS", .dict [("Info", .dict [("Path", .string "other.dmg")])])])
        (.dict [("OS", .dict [("Info", .dict [("Path", .string "other.dmg")])])])
      = some "other.dmg"
    ∧ (some "fs.dmg" : Option String) ≠ some "other.dmg" := by decide

/-- Claim C3 (amended): the filesystem image path used for extraction is
read from the TSS request: for every run that reaches filesystem
extraction the path equals `tss_request["OS"].Info.Path` (the result does
not depend on the TSS response at all), and the run fails before extraction
exactly when that entry, its Info sub-dictionary, or its Path string is
absent or wrongly typed in the request. -/
theorem filesystem_path_from_request_amended (tss_request tss_response tss_response' : Plist)
    (path : String) :
    main_filesystem_path tss_request tss_response
      = main_filesystem_path tss_request tss_response'
    ∧ (main_filesystem_path tss_request tss_response = some path ↔
        ∃ os info, plist_dict_get_item tss_request "OS" = some os ∧ isDict os = true
          ∧ plist_dict_get_item os "Info" = some info ∧ isDict info = true
          ∧ plist_dict_get_item info "Path" = some (.string path)) := by
  constructor
  · rfl
  · constructor
    · intro h
      simp only [main_filesystem_path] at h
      split at h
      · exact Option.noConfusion h
      · rename_i os hos
        split at h
        · rename_i hdos
          split at h
          · exact Option.noConfusion h
          · rename_i info hinfo
            split at h
            · rename_i hdinfo
              split at h
              · exact Option.noConfusion h
              · rename_i pathNode hpath
                rw [asString_eq_some] at h
                exact ⟨os, info, hos, hdos, hinfo, hdinfo, h ▸ hpath⟩
            · exact Option.noConfusion h
        · exact Option.noConfusion h
    · rintro ⟨os, info, h1, h2, h3, h4, h5⟩
      simp [main_filesystem_path, h1, h2, h3, h4, h5, asString]

/-- Device mode constant of the C source. -/
def UNKNOWN_MODE : Nat := 0

/-- Device mode constant of the C source. -/
def DFU_MODE : Nat := 1

/-- Device mode constant of the C source. -/
def NORMAL_MODE : Nat := 2

/-- Device mode constant of the C source. -/
def RECOVERY_MODE : Nat := 3

/-- Device mode constant of the C source. -/
def RESTORE_MODE : Nat := 4

/-- One enumeration attempt of the discovery phase. -/
inductive ProbeStep where
  | tryNormal
  | tryRecovery
  deriving DecidableEq

/-- Device discovery of `main` (src lines 111-127): `idevice_new` (normal
mode) is tried first; only when it fails is `irecv_open` (recovery mode)
tried; both failing aborts with the device-not-found error (`none`);
otherwise the mode cell receives `NORMAL_MODE` or `RECOVERY_MODE`. -/
def determine_mode (normal_ok recovery_ok : Bool) : List ProbeStep × Option Nat :=
  if normal_ok = false then
    if recovery_ok = false then ([.tryNormal, .tryRecovery], none)
    else ([.tryNormal, .tryRecovery], some RECOVERY_MODE)
  else ([.tryNormal], some NORMAL_MODE)

/-- Claim C8: discovery tries normal-mode enumeration first and recovery
enumeration only if normal fails; the device-not-found abort happens iff
both fail; the resulting mode is `NORMAL_MODE` iff the first succeeds and
`RECOVERY_MODE` iff only the second succeeds. -/
theorem probe_order_and_modes :
    ∀ normal_ok recovery_ok : Bool,
      ((determine_mode normal_ok recovery_ok).2 = none ↔
        (normal_ok = false ∧ recovery_ok = false))
      ∧ ((determine_mode normal_ok recovery_ok).2 = some NORMAL_MODE ↔ normal_ok = true)
      ∧ ((determine_mode normal_ok recovery_ok).2 = some RECOVERY_MODE ↔
        (normal_ok = false ∧ recovery_ok = true))
      ∧ ((determine_mode normal_ok recovery_ok).1.head? = some .tryNormal)
      ∧ (ProbeStep.tryRecovery ∈ (determine_mode normal_ok recovery_ok).1 ↔
        normal_ok = false) := by decide

/-- One observable event of the boot-chain upload phase. -/
inductive BootStep where
  | send (component : String)
  | operatorPause
  deriving DecidableEq

/-- The boot-chain upload phase of `main` (src lines 273-309):
`recovery_send_ibec`, `recovery_send_applelogo`, `recovery_send_devicetree`,
`recovery_send_ramdisk`, then the console prompt plus `getchar()`
(`operatorPause`), then `recovery_send_kernelcache`; a failing send makes
`main` return -1 at once (`false`).  The `sleep(1)` after the iBEC send is
not an upload and is not recorded. -/
def main_upload_bootchain (send_ok : String → Bool) : List BootStep × Bool :=
  if send_ok "iBEC" = false then
    ([.send "iBEC"], false)
  else if send_ok "AppleLogo" = false then
    ([.send "iBEC", .send "AppleLogo"], false)
  else if send_ok "DeviceTree" = false then
    ([.send "iBEC", .send "AppleLogo", .send "DeviceTree"], false)
  else if send_ok "RestoreRamDisk" = false then
    ([.send "iBEC", .send "AppleLogo", .send "DeviceTree", .send "RestoreRamDisk"], false)
  else if send_ok "KernelCache" = false then
    ([.send "iBEC", .send "AppleLogo", .send "DeviceTree", .send "RestoreRamDisk",
      .operatorPause, .send "KernelCache"], false)
  else
    ([.send "iBEC", .send "AppleLogo", .send "DeviceTree", .send "RestoreRamDisk",
      .operatorPause, .send "KernelCache"], true)

/-- Claim C1: on the success path the boot-chain components are sent in
exactly the order iBEC, AppleLogo, DeviceTree, RestoreRamDisk, KernelCache,
with the operator pause after the RestoreRamDisk send and before the
KernelCache send; nothing is sent out of order or skipped. -/
theorem bootchain_order (send_ok : String → Bool)
    (h1 : send_ok "iBEC" = true) (h2 : send_ok "AppleLogo" = true)
    (h3 : send_ok "DeviceTree" = true) (h4 : send_ok "RestoreRamDisk" = true)
    (h5 : send_ok "KernelCache" = true) :
    main_upload_bootchain send_ok
      = ([.send "iBEC", .send "AppleLogo", .send "DeviceTree", .send "RestoreRamDisk",
          .operatorPause, .send "KernelCache"], true) := by
  simp [main_upload_bootchain, h1, h2, h3, h4, h5]

/-- Claim C1, witness: the upload order evaluated with every send
succeeding. -/
theorem bootchain_order_witness :
    main_upload_bootchain (fun _ => true)
      = ([.send "iBEC", .send "AppleLogo", .send "DeviceTree", .send "RestoreRamDisk",
          .operatorPause, .send "KernelCache"], true) :=
  bootchain_order (fun _ => true) rfl rfl rfl rfl rfl

/-- `RESTORE_E_SUCCESS` of libimobiledevice, the success status the loop
compares `restore_error` against. -/
def RESTORE_E_SUCCESS : Int := 0

/-- The two device events `device_callback` (src lines 415-421)
dispatches on. -/
inductive IdeviceEvent where
  | deviceAdd
  | deviceRemove
  deriving DecidableEq

/-- The shared cell the event callback writes and `main` polls:
`idevicerestore_mode` and `idevicerestore_quit`. -/
structure GlobalState where
  mode : Nat
  quit : Bool
  deriving DecidableEq

/-- `device_callback` (src lines 415-421): `IDEVICE_DEVICE_ADD` sets the
mode cell to `RESTORE_MODE`; `IDEVICE_DEVICE_REMOVE` sets the quit flag. -/
def device_callback (event : IdeviceEvent) (s : GlobalState) : GlobalState :=
  match event with
  | .deviceAdd => ⟨RESTORE_MODE, s.quit⟩
  | .deviceRemove => ⟨s.mode, true⟩

/-- Observable actions of the restore message loop and of the cleanup that
follows it (src lines 350-412). -/
inductive RestoreAction where
  | receive
  | handleProgress
  | handleStatus
  | logUnknownMsg
  | sendSystemImage
  | sendKernelCache
  | sendNORData
  | reportError (diagnostic : String)
  | freeMessage
  | closeSession
  | freeTssResponse
  | freeDevice
  | unlinkFilesystem
  deriving DecidableEq

/-- The cleanup `main` performs after the loop exits (src lines 408-411):
`restored_client_free`, `plist_free(tss_response)`, `idevice_free`,
`unlink(filesystem)`. -/
def restore_cleanup : List RestoreAction :=
  [.closeSession, .freeTssResponse, .freeDevice, .unlinkFilesystem]

/-- Outcomes of one iteration of the restore loop and the result of the
external calls it makes: the status `restored_receive` returned, the
message it produced, the statuses of `restore_handle_progress_msg` and
`restore_handle_status_msg` (consulted only when dispatched to), whether
`get_signed_component_by_name` for the kernel cache succeeds, and the
device events the transport delivers before the next iteration's test of
the quit flag. -/
structure IterInput where
  receiveStatus : Int
  message : Plist
  progressStatus : Int
  statusStatus : Int
  kernelcacheOk : Bool
  events : List IdeviceEvent

/-- Per-message trace closing of an iteration that falls through to the
bottom of the loop body (src lines 397-402): report `restore_error` when it
is not `RESTORE_E_SUCCESS`, then `plist_free(message)` and continue. -/
def finish_iteration (acts : List RestoreAction) (restore_error : Int) :
    List RestoreAction × Option Int :=
  if restore_error ≠ RESTORE_E_SUCCESS then
    (acts ++ [.reportError "Invalid return status", .freeMessage], none)
  else (acts ++ [.freeMessage], none)

/-- One iteration of the restore loop body (src lines 351-402), given the
outcomes of the external calls: receive a message, dispatch on its string
"MsgType" — `ProgressMsg` and `StatusMsg` run their handler and overwrite
`restore_error`; `DataRequestMsg` dispatches on the string "DataType",
where a failing kernel-cache production and an unknown data type each make
`main` return -1 at once (`some (-1)`), with no cleanup; any other or
missing message type falls through.  The second component is the early
process return, `none` when the loop continues. -/
def loop_iteration (inp : IterInput) : List RestoreAction × Option Int :=
  match (plist_dict_get_item inp.message "MsgType").bind asString with
  | some msgtype =>
    if msgtype = "ProgressMsg" then
      finish_iteration [.receive, .handleProgress] inp.progressStatus
    else if msgtype = "DataRequestMsg" then
      match (plist_dict_get_item inp.message "DataType").bind asString with
      | some datatype =>
        if datatype = "SystemImageData" then
          finish_iteration [.receive, .sendSystemImage] inp.receiveStatus
        else if datatype = "KernelCache" then
          if inp.kernelcacheOk then
            finish_iteration [.receive, .sendKernelCache] inp.receiveStatus
          else ([.receive, .reportError "Unable to get kernelcache file"], some (-1))
        else if datatype = "NORData" then
          finish_iteration [.receive, .sendNORData] inp.receiveStatus
        else ([.receive, .reportError "Unknown DataType"], some (-1))
      | none => finish_iteration [.receive] inp.receiveStatus
    else if msgtype = "StatusMsg" then
      finish_iteration [.receive, .handleStatus] inp.statusStatus
    else
      finish_iteration [.receive, .logUnknownMsg] inp.receiveStatus
  | none => finish_iteration [.receive] inp.receiveStatus

/-- Fold the asynchronously delivered device events into the shared cell. -/
def apply_events (events : List IdeviceEvent) (s : GlobalState) : GlobalState :=
  events.foldl (fun st e => device_callback e st) s

/-- How the modelled run of the loop ends. -/
inductive RunResult where
  | returned (code : Int)
  | running
  deriving DecidableEq

/-- The restore loop of `main` (src lines 350-412) over the finite list of
iteration inputs: the quit flag is tested before every receive; when it is
set the loop exits and the cleanup of src lines 408-411 runs, returning 0;
an early return from inside the loop body returns its code with no cleanup;
when the inputs are exhausted with the flag still clear the loop is still
running (blocked in `restored_receive`). -/
def run_loop : GlobalState → List IterInput → List RestoreAction × RunResult
  | s, [] =>
    if s.quit then (restore_cleanup, .returned 0) else ([], .running)
  | s, inp :: rest =>
    if s.quit then (restore_cleanup, .returned 0)
    else
      match loop_iteration inp with
      | (t, some code) => (t, .returned code)
      | (t, none) =>
        (t ++ (run_loop (apply_events inp.events s) rest).1,
         (run_loop (apply_events inp.events s) rest).2)

/-- Claim C4: on a `DataRequestMsg` whose "DataType" is none of
SystemImageData, KernelCache or NORData, the run does fail with the
unknown-data-type error and return code -1, but `main` returns at once:
the trace holds no `closeSession` (`restored_client_free`) and no
`unlinkFilesystem` (`unlink(filesystem)`), so the restore session is not
closed and the extracted filesystem temp file is not removed, contradicting
the claim and §7 of the spec. -/
theorem unknown_datatype_no_cleanup :
    run_loop ⟨RESTORE_MODE, false⟩
        [⟨0, .dict [("MsgType", .string "DataRequestMsg"), ("DataType", .string "Gibberish")],
          0, 0, true, []⟩]
      = ([.receive, .reportError "Unknown DataType"], .returned (-1))
    ∧ RestoreAction.closeSession ∉
        (run_loop ⟨RESTORE_MODE, false⟩
          [⟨0, .dict [("MsgType", .string "DataRequestMsg"), ("DataType", .string "Gibberish")],
            0, 0, true, []⟩]).1
    ∧ RestoreAction.unlinkFilesystem ∉
        (run_loop ⟨RESTORE_MODE, false⟩
          [⟨0, .dict [("MsgType", .string "DataRequestMsg"), ("DataType", .string "Gibberish")],
            0, 0, true, []⟩]).1 := by decide

/-- Claim C7: a non-success status from the progress handler, the status
handler, or from `restored_receive` itself (with no dispatchable message
type) never by itself ends the loop: the iteration reports the error,
returns no early exit, and the loop proceeds to the next message with the
quit flag (the whole shared cell) unchanged. -/
theorem handler_error_no_abort (s : GlobalState) (inp : IterInput)
    (rest : List IterInput)
    (hquit : s.quit = false) (hev : inp.events = [])
    (hfail :
      ((plist_dict_get_item inp.message "MsgType").bind asString = some "ProgressMsg"
        ∧ inp.progressStatus ≠ RESTORE_E_SUCCESS)
      ∨ ((plist_dict_get_item inp.message "MsgType").bind asString = some "StatusMsg"
        ∧ inp.statusStatus ≠ RESTORE_E_SUCCESS)
      ∨ ((plist_dict_get_item inp.message "MsgType").bind asString = none
        ∧ inp.receiveStatus ≠ RESTORE_E_SUCCESS)) :
    (loop_iteration inp).2 = none
    ∧ RestoreAction.reportError "Invalid return status" ∈ (loop_iteration inp).1
    ∧ run_loop s (inp :: rest)
      = ((loop_iteration inp).1 ++ (run_loop s rest).1, (run_loop s rest).2) := by
  have hiter : ∃ acts, loop_iteration inp
      = (acts ++ [.reportError "Invalid return status", .freeMessage], none) := by
    rcases hfail with ⟨hmsg, hst⟩ | ⟨hmsg, hst⟩ | ⟨hmsg, hst⟩
    · exact ⟨[.receive, .handleProgress], by
        simp [loop_iteration, hmsg, finish_iteration, hst]⟩
    · exact ⟨[.receive, .handleStatus], by
        simp [loop_iteration, hmsg, finish_iteration, hst]⟩
    · exact ⟨[.receive], by
        simp [loop_iteration, hmsg, finish_iteration, hst]⟩
  obtain ⟨acts, hiter⟩ := hiter
  refine ⟨by rw [hiter], by rw [hiter]; simp, ?_⟩
  rw [run_loop, hquit]
  simp [hiter, hev, apply_events, List.append_assoc]

/-- Claim C7, witness: a failing progress handler on a concrete
`ProgressMsg`, with one further message behind it. -/
theorem handler_error_no_abort_witness :
    (loop_iteration ⟨0, .dict [("MsgType", .string "ProgressMsg")], -3, 0, true, []⟩).2 = none
    ∧ RestoreAction.reportError "Invalid return status"
      ∈ (loop_iteration ⟨0, .dict [("MsgType", .string "ProgressMsg")], -3, 0, true, []⟩).1
    ∧ run_loop ⟨RESTORE_MODE, false⟩
        [⟨0, .dict [("MsgType", .string "ProgressMsg")], -3, 0, true, []⟩,
         ⟨0, .dict [("MsgType", .string "StatusMsg")], 0, 0, true, []⟩]
      = ((loop_iteration ⟨0, .dict [("MsgType", .string "ProgressMsg")], -3, 0, true, []⟩).1
          ++ (run_loop ⟨RESTORE_MODE, false⟩
              [⟨0, .dict [("MsgType", .string "StatusMsg")], 0, 0, true, []⟩]).1,
         (run_loop ⟨RESTORE_MODE, false⟩
              [⟨0, .dict [("MsgType", .string "StatusMsg")], 0, 0, true, []⟩]).2) :=
  handler_error_no_abort ⟨RESTORE_MODE, false⟩
    ⟨0, .dict [("MsgType", .string "ProgressMsg")], -3, 0, true, []⟩
    [⟨0, .dict [("MsgType", .string "StatusMsg")], 0, 0, true, []⟩]
    rfl rfl (Or.inl ⟨by decide, by decide⟩)

/-- Claim C9: a `DEVICE_REMOVE` event sets the quit flag, and since the
loop tests the flag before every receive, the loop then exits without
receiving anything more (only the post-loop cleanup runs); a `DEVICE_ADD`
event sets the mode cell to `RESTORE_MODE`. -/
theorem device_remove_quits :
    ∀ (s : GlobalState) (inputs : List IterInput),
      (device_callback .deviceRemove s).quit = true
      ∧ run_loop (device_callback .deviceRemove s) inputs = (restore_cleanup, .returned 0)
      ∧ RestoreAction.receive ∉ (run_loop (device_callback .deviceRemove s) inputs).1
      ∧ (device_callback .deviceAdd s).mode = RESTORE_MODE := by
  intro s inputs
  have hq : (device_callback .deviceRemove s).quit = true := rfl
  have hrun : run_loop (device_callback .deviceRemove s) inputs
      = (restore_cleanup, .returned 0) := by
    cases inputs with
    | nil => simp [run_loop, hq]
    | cons inp rest => simp [run_loop, hq]
  refine ⟨hq, hrun, ?_, rfl⟩
  rw [hrun]
  decide

/-- Steps of the personalization pipeline of `get_signed_component_by_name`
and `get_signed_component_by_path`. -/
inductive PersonalizeStep where
  | lookupTicket
  | extractComponent
  | parseImage
  | replaceSig
  | reserialize
  deriving DecidableEq

/-- `get_signed_component_by_name` (src lines 533-610), parameterized over
the external collaborators `img3_parse_file`, `img3_replace_signature`
(whose in-place mutation plus status is modelled as an `Option` of the
updated image), `img3_get_data` and `ipsw_extract_to_memory`: resolve the
ticket entry by logical name (return -1 when `get_tss_data_by_name` does),
extract the archive path from the bundle, parse the IMG3, replace the
signature with the ticket's blob unless `idevicerestore_custom` is set,
and re-serialize.  The debug-mode `write_file` does not change the emitted
bytes and is not recorded. -/
def get_signed_component_by_name {Img3 : Type}
    (img3_parse_file : List Nat → Option Img3)
    (img3_replace_signature : Img3 → List Nat → Option Img3)
    (img3_get_data : Img3 → Option (List Nat))
    (ipsw_extract_to_memory : String → Option (List Nat))
    (idevicerestore_custom : Bool)
    (tss : Plist) (component : String) :
    List PersonalizeStep × Option (List Nat) :=
  match get_tss_data_by_name tss component with
  | (ret, pathOpt, blobOpt) =>
    if ret < 0 then ([.lookupTicket], none)
    else match pathOpt, blobOpt with
      | some path, some blob =>
        (match ipsw_extract_to_memory path with
        | none => ([.lookupTicket, .extractComponent], none)
        | some data =>
          match img3_parse_file data with
          | none => ([.lookupTicket, .extractComponent, .parseImage], none)
          | some img3 =>
            if idevicerestore_custom = false then
              match img3_replace_signature img3 blob with
              | none => ([.lookupTicket, .extractComponent, .parseImage, .replaceSig], none)
              | some img3' =>
                match img3_get_data img3' with
                | none =>
                  ([.lookupTicket, .extractComponent, .parseImage, .replaceSig,
                    .reserialize], none)
                | some reconstructed =>
                  ([.lookupTicket, .extractComponent, .parseImage, .replaceSig,
                    .reserialize], some reconstructed)
            else
              match img3_get_data img3 with
              | none => ([.lookupTicket, .extractComponent, .parseImage, .reserialize], none)
              | some reconstructed =>
                ([.lookupTicket, .extractComponent, .parseImage, .reserialize],
                  some reconstructed))
      | _, _ => ([.lookupTicket], none)

/-- `get_signed_component_by_path` (src lines 612-689): identical pipeline,
except that the ticket entry is resolved by archive path through
`get_tss_data_by_path` (yielding the entry's name and blob) and the bytes
are extracted at the `path` argument itself. -/
def get_signed_component_by_path {Img3 : Type}
    (img3_parse_file : List Nat → Option Img3)
    (img3_replace_signature : Img3 → List Nat → Option Img3)
    (img3_get_data : Img3 → Option (List Nat))
    (ipsw_extract_to_memory : String → Option (List Nat))
    (idevicerestore_custom : Bool)
    (tss : Plist) (path : String) :
    List PersonalizeStep × Option (List Nat) :=
  match get_tss_data_by_path tss path with
  | (ret, nameOpt, blobOpt) =>
    if ret < 0 then ([.lookupTicket], none)
    else match nameOpt, blobOpt with
      | some _, some blob =>
        (match ipsw_extract_to_memory path with
        | none => ([.lookupTicket, .extractComponent], none)
        | some data =>
          match img3_parse_file data with
          | none => ([.lookupTicket, .extractComponent, .parseImage], none)
          | some img3 =>
            if idevicerestore_custom = false then
              match img3_replace_signature img3 blob with
              | none => ([.lookupTicket, .extractComponent, .parseImage, .replaceSig], none)
              | some img3' =>
                match img3_get_data img3' with
                | none =>
                  ([.lookupTicket, .extractComponent, .parseImage, .replaceSig,
                    .reserialize], none)
                | some reconstructed =>
                  ([.lookupTicket, .extractComponent, .parseImage, .replaceSig,
                    .reserialize], some reconstructed)
            else
              match img3_get_data img3 with
              | none => ([.lookupTicket, .extractComponent, .parseImage, .reserialize], none)
              | some reconstructed =>
                ([.lookupTicket, .extractComponent, .parseImage, .reserialize],
                  some reconstructed))
      | _, _ => ([.lookupTicket], none)

/-- Claim C6: in custom mode the signature replacement is the only step the
personalization pipeline skips — the component is still looked up in the
ticket, extracted, parsed and re-serialized, the step trace differing from
the non-custom one exactly by the absent `replaceSig`, and the emitted
bytes equal `serialize(parse(extracted))`: the same for any ticket whose
entry carries the same path, whatever its blob.  With custom mode off, the
signature is replaced with the ticket's blob before serialization.  Stated
for both the by-name and the by-path variant. -/
theorem custom_mode_skips_only_signature {Img3 : Type}
    (img3_parse_file : List Nat → Option Img3)
    (img3_replace_signature : Img3 → List Nat → Option Img3)
    (img3_get_data : Img3 → Option (List Nat))
    (ipsw_extract_to_memory : String → Option (List Nat))
    (tss tss' : Plist) (component path name : String) (blob blob' : List Nat)
    (data : List Nat) (img3 img3' : Img3) (original replaced : List Nat)
    (hname : get_tss_data_by_name tss component = (0, some path, some blob))
    (hname' : get_tss_data_by_name tss' component = (0, some path, some blob'))
    (hpath : get_tss_data_by_path tss path = (0, some name, some blob))
    (hext : ipsw_extract_to_memory path = some data)
    (hparse : img3_parse_file data = some img3)
    (hser : img3_get_data img3 = some original)
    (hrep : img3_replace_signature img3 blob = some img3')
    (hser' : img3_get_data img3' = some replaced) :
    get_signed_component_by_name img3_parse_file img3_replace_signature img3_get_data
        ipsw_extract_to_memory true tss component
      = ([.lookupTicket, .extractComponent, .parseImage, .reserialize], some original)
    ∧ get_signed_component_by_name img3_parse_file img3_replace_signature img3_get_data
        ipsw_extract_to_memory true tss' component
      = ([.lookupTicket, .extractComponent, .parseImage, .reserialize], some original)
    ∧ get_signed_component_by_name img3_parse_file img3_replace_signature img3_get_data
        ipsw_extract_to_memory false tss component
      = ([.lookupTicket, .extractComponent, .parseImage, .replaceSig, .reserialize],
          some replaced)
    ∧ get_signed_component_by_path img3_parse_file img3_replace_signature img3_get_data
        ipsw_extract_to_memory true tss path
      = ([.lookupTicket, .extractComponent, .parseImage, .reserialize], some original)
    ∧ get_signed_component_by_path img3_parse_file img3_replace_signature img3_get_data
        ipsw_extract_to_memory false tss path
      = ([.lookupTicket, .extractComponent, .parseImage, .replaceSig, .reserialize],
          some replaced) := by
  refine ⟨?_, ?_, ?_, ?_, ?_⟩
  · simp [get_signed_component_by_name, hname, hext, hparse, hser]
  · simp [get_signed_component_by_name, hname', hext, hparse, hser]
  · simp [get_signed_component_by_name, hname, hext, hparse, hrep, hser']
  · simp [get_signed_component_by_path, hpath, hext, hparse, hser]
  · simp [get_signed_component_by_path, hpath, hext, hparse, hrep, hser']

/-- Claim C6, witness: the pipeline evaluated with a concrete toy codec and
two concrete tickets that agree on the path and differ in the blob. -/
theorem custom_mode_witness :
    @get_signed_component_by_name (List Nat) some (fun _ b => some b) some
        (fun _ => some [9, 9]) true
        (.dict [("K", .dict [("Path", .string "k.img3"), ("Blob", .data [1])])]) "K"
      = ([.lookupTicket, .extractComponent, .parseImage, .reserialize], some [9, 9])
    ∧ @get_signed_component_by_name (List Nat) some (fun _ b => some b) some
        (fun _ => some [9, 9]) true
        (.dict [("K", .dict [("Path", .string "k.img3"), ("Blob", .data [2])])]) "K"
      = ([.lookupTicket, .extractComponent, .parseImage, .reserialize], some [9, 9])
    ∧ @get_signed_component_by_name (List Nat) some (fun _ b => some b) some
        (fun _ => some [9, 9]) false
        (.dict [("K", .dict [("Path", .string "k.img3"), ("Blob", .data [1])])]) "K"
      = ([.lookupTicket, .extractComponent, .parseImage, .replaceSig, .reserialize],
          some [1])
    ∧ @get_signed_component_by_path (List Nat) some (fun _ b => some b) some
        (fun _ => some [9, 9]) true
        (.dict [("K", .dict [("Path", .string "k.img3"), ("Blob", .data [1])])]) "k.img3"
      = ([.lookupTicket, .extractComponent, .parseImage, .reserialize], some [9, 9])
    ∧ @get_signed_component_by_path (List Nat) some (fun _ b => some b) some
        (fun _ => some [9, 9]) false
        (.dict [("K", .dict [("Path", .string "k.img3"), ("Blob", .data [1])])]) "k.img3"
      = ([.lookupTicket, .extractComponent, .parseImage, .replaceSig, .reserialize],
          some [1]) :=
  @custom_mode_skips_only_signature (List Nat) some (fun _ b => some b) some
    (fun _ => some [9, 9])
    (.dict [("K", .dict [("Path", .string "k.img3"), ("Blob", .data [1])])])
    (.dict [("K", .dict [("Path", .string "k.img3"), ("Blob", .data [2])])])
    "K" "k.img3" "K" [1] [2] [9, 9] [9, 9] [1] [9, 9] [1]
    (by decide) (by decide) (by decide) rfl rfl rfl rfl rfl

end IDR
